import Mathlib

set_option maxHeartbeats 1000000

/-!
Verification of the `InteractOutsideDirective` component
(`ngx-interact-outside`): listener lifecycle management, containment-based
event classification, and runtime reconfiguration semantics.

The directive is embedded shallowly: its private fields become a `Watcher`
record, its methods become pure state transformers, and the two
`EventEmitter` output channels become emission lists returned alongside the
state.  DOM collaborators are parameters: the host element's containment
test `HTMLElement.contains` is an abstract boolean predicate on node
identifiers, and `Renderer2.listen` / the returned removal closure are
modelled by per-kind counters of subscriptions actually installed on the
event source, next to the boolean "handle field is non-null" flags.  The
counters let the model express duplicated or orphaned subscriptions, which
the nullable handle fields alone could not.
-/

namespace InteractOutside

/-- A DOM node identifier.  Nodes are opaque handles; the only query the
directive makes about them is containment in the host element. -/
abbrev Node := Nat

/-- A mouse event as the directive sees it: `target` (used by the
`mousedown` classification) and `relatedTarget` / `toElement` (used by the
`mouseleave` false-positive filter).  `none` stands for a null or
unresolvable field. -/
structure MouseEvt where
  target : Option Node
  relatedTarget : Option Node
  toElement : Option Node
deriving DecidableEq, Repr

/-- A single touch point; `target` is its (possibly null) target node. -/
structure Touch where
  target : Option Node
deriving DecidableEq, Repr

/-- A touch event: `changedTouches` holds the points that newly became
active with this event, `touches` the full active-touch list (which may
contain stale points from prior events).  An absent (`null`)
`changedTouches` list is modelled by the empty list: the source guards
`event.changedTouches && event.changedTouches.length`, and both the null
list and the empty list fail that guard the same way. -/
structure TouchEvt where
  changedTouches : List Touch
  touches : List Touch
deriving DecidableEq, Repr

/-- The state of `InteractOutsideDirective`: the four `@Input` flags, the
`isInitialized` flag, the three retained listener references (`true` = a
removal handle is held, `false` = the field is null), and, per kind, the
number of handler subscriptions currently installed on the event source
(document, or the host element for `mouseleave`) via `renderer.listen`. -/
structure Watcher where
  isListening : Bool
  listenMouseDownOutside : Bool
  listenTouchStartOutside : Bool
  listenMouseLeave : Bool
  isInitialized : Bool
  mouseDownListener : Bool
  touchStartListener : Bool
  mouseLeaveListener : Bool
  mouseDownSubs : Nat
  touchStartSubs : Nat
  mouseLeaveSubs : Nat
deriving DecidableEq, Repr

/-- The directive immediately after construction: field initializers
`_isListening = true`, `_listenMouseDownOutside = true`,
`_listenTouchStartOutside = false`, `_listenMouseLeave = false`,
`isInitialized = false`; the constructor only stores the host element and
installs nothing. -/
def initWatcher : Watcher :=
  { isListening := true
    listenMouseDownOutside := true
    listenTouchStartOutside := false
    listenMouseLeave := false
    isInitialized := false
    mouseDownListener := false
    touchStartListener := false
    mouseLeaveListener := false
    mouseDownSubs := 0
    touchStartSubs := 0
    mouseLeaveSubs := 0 }

/-- `clearListeners`: for each kind, if the handle field is non-null the
retained removal closure is invoked (removing that subscription from the
event source), then all three fields are set to null. -/
def clearListeners (w : Watcher) : Watcher :=
  { w with
    mouseDownSubs := if w.mouseDownListener then w.mouseDownSubs - 1 else w.mouseDownSubs
    touchStartSubs := if w.touchStartListener then w.touchStartSubs - 1 else w.touchStartSubs
    mouseLeaveSubs := if w.mouseLeaveListener then w.mouseLeaveSubs - 1 else w.mouseLeaveSubs
    mouseDownListener := false
    touchStartListener := false
    mouseLeaveListener := false }

/-- `updateListeners`: clear all current listeners, then, only if
`_isListening`, install one subscription per enabled kind
(`renderer.listen` registers a handler on the source and returns a removal
handle stored in the corresponding field). -/
def updateListeners (w : Watcher) : Watcher :=
  let w1 := clearListeners w
  if w1.isListening then
    let w2 :=
      if w1.listenMouseDownOutside then
        { w1 with mouseDownListener := true, mouseDownSubs := w1.mouseDownSubs + 1 }
      else w1
    let w3 :=
      if w2.listenTouchStartOutside then
        { w2 with touchStartListener := true, touchStartSubs := w2.touchStartSubs + 1 }
      else w2
    if w3.listenMouseLeave then
      { w3 with mouseLeaveListener := true, mouseLeaveSubs := w3.mouseLeaveSubs + 1 }
    else w3
  else w1

/-- `ngOnInit`: set `isInitialized` and run the first derivation. -/
def ngOnInit (w : Watcher) : Watcher :=
  updateListeners { w with isInitialized := true }

/-- `ngOnDestroy`: clear all listeners.  (No other field is touched.) -/
def ngOnDestroy (w : Watcher) : Watcher :=
  clearListeners w

/-- The `isListening` input setter: store the value, then re-derive if
initialized. -/
def setIsListening (v : Bool) (w : Watcher) : Watcher :=
  let w1 := { w with isListening := v }
  if w1.isInitialized then updateListeners w1 else w1

/-- The `listenMouseDownOutside` input setter. -/
def setListenMouseDownOutside (v : Bool) (w : Watcher) : Watcher :=
  let w1 := { w with listenMouseDownOutside := v }
  if w1.isInitialized then updateListeners w1 else w1

/-- The `listenTouchStartOutside` input setter. -/
def setListenTouchStartOutside (v : Bool) (w : Watcher) : Watcher :=
  let w1 := { w with listenTouchStartOutside := v }
  if w1.isInitialized then updateListeners w1 else w1

/-- The `listenMouseLeave` input setter. -/
def setListenMouseLeave (v : Bool) (w : Watcher) : Watcher :=
  let w1 := { w with listenMouseLeave := v }
  if w1.isInitialized then updateListeners w1 else w1

/-- The read-only state snapshot returned by the `currentState` getter. -/
structure CurrentState where
  isListening : Bool
  listenMouseDownOutside : Bool
  listenTouchStartOutside : Bool
  listenMouseLeave : Bool
  listenersCleared : Bool
deriving DecidableEq, Repr

/-- The `currentState` getter: the four flags plus
`!mouseDownListener && !touchStartListener && !mouseLeaveListener`. -/
def Watcher.currentState (w : Watcher) : CurrentState :=
  { isListening := w.isListening
    listenMouseDownOutside := w.listenMouseDownOutside
    listenTouchStartOutside := w.listenTouchStartOutside
    listenMouseLeave := w.listenMouseLeave
    listenersCleared := !w.mouseDownListener && !w.touchStartListener && !w.mouseLeaveListener }

/-- `handleMouseDown`: if the event has a target node and the host element
does not contain it, emit the raw event on `interactOutsideEvent`.
`contains` is the host element's `HTMLElement.contains` test.  The handler
reads no directive field and writes none, which the state-passing
translation makes explicit. -/
def handleMouseDown (contains : Node → Bool) (w : Watcher) (e : MouseEvt) :
    Watcher × List MouseEvt :=
  match e.target with
  | some t => if contains t then (w, []) else (w, [e])
  | none => (w, [])

/-- `handleTouchStart`: guard `changedTouches && changedTouches.length`,
take `changedTouches[0]`, guard `touch && touch.target`, then apply the
same containment test and emit the raw event on `interactOutsideEvent`. -/
def handleTouchStart (contains : Node → Bool) (w : Watcher) (e : TouchEvt) :
    Watcher × List TouchEvt :=
  match e.changedTouches.head? with
  | some touch =>
    match touch.target with
    | some t => if contains t then (w, []) else (w, [e])
    | none => (w, [])
  | none => (w, [])

/-- `handleMouseLeave`: forward the event on `mouseLeaveEvent` only if
`event.relatedTarget || event.toElement` is truthy (a non-null node). -/
def handleMouseLeave (w : Watcher) (e : MouseEvt) : Watcher × List MouseEvt :=
  if e.relatedTarget.isSome || e.toElement.isSome then (w, [e]) else (w, [])

/-- Run a handler once per installed subscription (the event source invokes
every registered handler for a dispatched event), threading the state and
concatenating the emissions. -/
def fireTimes {E : Type} (h : Watcher → Watcher × List E) : Nat → Watcher → Watcher × List E
  | 0, w => (w, [])
  | n + 1, w =>
    let r := h w
    let rest := fireTimes h n r.1
    (rest.1, r.2 ++ rest.2)

/-- Dispatch a `mousedown` event on the document: every installed
`mousedown` subscription fires `handleMouseDown`. -/
def dispatchMouseDown (contains : Node → Bool) (w : Watcher) (e : MouseEvt) :
    Watcher × List MouseEvt :=
  fireTimes (fun w1 => handleMouseDown contains w1 e) w.mouseDownSubs w

/-- Dispatch a `touchstart` event on the document. -/
def dispatchTouchStart (contains : Node → Bool) (w : Watcher) (e : TouchEvt) :
    Watcher × List TouchEvt :=
  fireTimes (fun w1 => handleTouchStart contains w1 e) w.touchStartSubs w

/-- Dispatch a `mouseleave` event on the host element. -/
def dispatchMouseLeave (w : Watcher) (e : MouseEvt) : Watcher × List MouseEvt :=
  fireTimes (fun w1 => handleMouseLeave w1 e) w.mouseLeaveSubs w

/-- The operations an external caller can perform on the directive:
lifecycle hooks and the four input setters. -/
inductive Op where
  | onInit : Op
  | onDestroy : Op
  | setIsListening (v : Bool) : Op
  | setListenMouseDownOutside (v : Bool) : Op
  | setListenTouchStartOutside (v : Bool) : Op
  | setListenMouseLeave (v : Bool) : Op
deriving DecidableEq, Repr

/-- Apply one operation. -/
def applyOp (w : Watcher) : Op → Watcher
  | Op.onInit => ngOnInit w
  | Op.onDestroy => ngOnDestroy w
  | Op.setIsListening v => setIsListening v w
  | Op.setListenMouseDownOutside v => setListenMouseDownOutside v w
  | Op.setListenTouchStartOutside v => setListenTouchStartOutside v w
  | Op.setListenMouseLeave v => setListenMouseLeave v w

/-- Apply a sequence of operations, first element first. -/
def applyOps (ops : List Op) (w : Watcher) : Watcher :=
  ops.foldl applyOp w

/-- Per kind, the subscription count on the event source agrees with the
stored handle: exactly one installed subscription when the handle field is
non-null, none when it is null — no duplicates and no orphans. -/
def subsInv (w : Watcher) : Prop :=
  w.mouseDownSubs = cond w.mouseDownListener 1 0 ∧
  w.touchStartSubs = cond w.touchStartListener 1 0 ∧
  w.mouseLeaveSubs = cond w.mouseLeaveListener 1 0

instance (w : Watcher) : Decidable (subsInv w) :=
  inferInstanceAs (Decidable
    (w.mouseDownSubs = cond w.mouseDownListener 1 0 ∧
     w.touchStartSubs = cond w.touchStartListener 1 0 ∧
     w.mouseLeaveSubs = cond w.mouseLeaveListener 1 0))

/-- Per kind, a handle is held if and only if `isListening` and the
corresponding flag are both true. -/
def exactFields (w : Watcher) : Prop :=
  w.mouseDownListener = (w.isListening && w.listenMouseDownOutside) ∧
  w.touchStartListener = (w.isListening && w.listenTouchStartOutside) ∧
  w.mouseLeaveListener = (w.isListening && w.listenMouseLeave)

instance (w : Watcher) : Decidable (exactFields w) :=
  inferInstanceAs (Decidable
    (w.mouseDownListener = (w.isListening && w.listenMouseDownOutside) ∧
     w.touchStartListener = (w.isListening && w.listenTouchStartOutside) ∧
     w.mouseLeaveListener = (w.isListening && w.listenMouseLeave)))

/-- A concrete containment hierarchy for witnesses: the host element is
node 2, its descendant is node 3; nodes 0 (document root), 1 and 4 are
outside.  Containment is reflexive: the element contains itself. -/
def demoContains : Node → Bool := fun n => n = 2 || n = 3

theorem updateListeners_spec (w : Watcher) (h : subsInv w) :
    subsInv (updateListeners w) ∧ exactFields (updateListeners w) ∧
    (updateListeners w).isListening = w.isListening ∧
    (updateListeners w).listenMouseDownOutside = w.listenMouseDownOutside ∧
    (updateListeners w).listenTouchStartOutside = w.listenTouchStartOutside ∧
    (updateListeners w).listenMouseLeave = w.listenMouseLeave ∧
    (updateListeners w).isInitialized = w.isInitialized := by
  obtain ⟨l, md, ts, ml, ini, fmd, fts, fml, smd, sts, sml⟩ := w
  simp only [subsInv] at h
  obtain ⟨h1, h2, h3⟩ := h
  rw [h1, h2, h3]
  cases l <;> cases md <;> cases ts <;> cases ml <;> cases ini <;> cases fmd <;> cases fts <;>
    cases fml <;> decide

theorem clearListeners_spec (w : Watcher) (h : subsInv w) :
    clearListeners w =
      { w with
        mouseDownListener := false, touchStartListener := false, mouseLeaveListener := false,
        mouseDownSubs := 0, touchStartSubs := 0, mouseLeaveSubs := 0 } := by
  obtain ⟨l, md, ts, ml, ini, fmd, fts, fml, smd, sts, sml⟩ := w
  simp only [subsInv] at h
  obtain ⟨h1, h2, h3⟩ := h
  rw [h1, h2, h3]
  cases l <;> cases md <;> cases ts <;> cases ml <;> cases ini <;> cases fmd <;> cases fts <;>
    cases fml <;> decide

theorem applyOp_subsInv (w : Watcher) (op : Op) (h : subsInv w) : subsInv (applyOp w op) := by
  obtain ⟨l, md, ts, ml, ini, fmd, fts, fml, smd, sts, sml⟩ := w
  simp only [subsInv] at h
  obtain ⟨h1, h2, h3⟩ := h
  rw [h1, h2, h3]
  cases op <;>
    first
    | (rename_i v
       cases v <;> cases l <;> cases md <;> cases ts <;> cases ml <;> cases ini <;> cases fmd <;>
         cases fts <;> cases fml <;> decide)
    | (cases l <;> cases md <;> cases ts <;> cases ml <;> cases ini <;> cases fmd <;>
         cases fts <;> cases fml <;> decide)

theorem applyOps_subsInv_of (ops : List Op) (w : Watcher) (h : subsInv w) :
    subsInv (applyOps ops w) := by
  induction ops generalizing w with
  | nil => exact h
  | cons op rest ih => exact ih (applyOp w op) (applyOp_subsInv w op h)

/-- C1: after activation, after every completed re-derivation (triggered by
activation or by any configuration update), the installed subscriptions are
exactly those implied by `listening AND <flag>` per kind: every state
reachable from construction keeps the one-handle-one-subscription
correspondence (`subsInv`: no duplicates, no orphans), and re-derivation on
any such state makes each handle field equal `isListening && flag` while
leaving the configuration untouched. -/
theorem C1_subscriptions_exact :
    (∀ ops : List Op, subsInv (applyOps ops initWatcher)) ∧
    ∀ w : Watcher, subsInv w →
      exactFields (updateListeners w) ∧ subsInv (updateListeners w) ∧
      (updateListeners w).isListening = w.isListening ∧
      (updateListeners w).listenMouseDownOutside = w.listenMouseDownOutside ∧
      (updateListeners w).listenTouchStartOutside = w.listenTouchStartOutside ∧
      (updateListeners w).listenMouseLeave = w.listenMouseLeave := by
  refine ⟨fun ops => applyOps_subsInv_of ops initWatcher (by decide), fun w h => ?_⟩
  obtain ⟨hi, he, hl, hmd, hts, hml, _⟩ := updateListeners_spec w h
  exact ⟨he, hi, hl, hmd, hts, hml⟩

theorem C1_subscriptions_exact_witness :
    exactFields (updateListeners initWatcher) ∧ subsInv (updateListeners initWatcher) :=
  ⟨(C1_subscriptions_exact.2 initWatcher (by decide)).1,
   (C1_subscriptions_exact.2 initWatcher (by decide)).2.1⟩

theorem fireTimes_fst {E : Type} (h : Watcher → Watcher × List E)
    (hp : ∀ w, (h w).1 = w) (n : Nat) (w : Watcher) : (fireTimes h n w).1 = w := by
  induction n generalizing w with
  | zero => rfl
  | succ n ih =>
    show (fireTimes h n (h w).1).1 = w
    rw [ih, hp]

theorem fireTimes_one {E : Type} (h : Watcher → Watcher × List E) (w : Watcher) :
    (fireTimes h 1 w).2 = (h w).2 := by
  simp [fireTimes]

theorem handleMouseDown_fst (contains : Node → Bool) (w : Watcher) (e : MouseEvt) :
    (handleMouseDown contains w e).1 = w := by
  cases he : e.target with
  | none => simp [handleMouseDown, he]
  | some t => cases hc : contains t <;> simp [handleMouseDown, he, hc]

theorem handleTouchStart_fst (contains : Node → Bool) (w : Watcher) (e : TouchEvt) :
    (handleTouchStart contains w e).1 = w := by
  cases hh : e.changedTouches.head? with
  | none => simp [handleTouchStart, hh]
  | some touch =>
    cases ht : touch.target with
    | none => simp [handleTouchStart, hh, ht]
    | some t => cases hc : contains t <;> simp [handleTouchStart, hh, ht, hc]

theorem handleMouseLeave_fst (w : Watcher) (e : MouseEvt) :
    (handleMouseLeave w e).1 = w := by
  unfold handleMouseLeave
  split <;> rfl

/-- The directive after the default construction and `ngOnInit`: only the
`mousedown` subscription is installed. -/
def demoActive : Watcher := ngOnInit initWatcher

/-- Enable `touchstart` watching before activation, then activate. -/
def demoTouchActive : Watcher :=
  applyOps [Op.setListenTouchStartOutside true, Op.onInit] initWatcher

/-- Enable `mouseleave` watching before activation, then activate. -/
def demoLeaveActive : Watcher :=
  applyOps [Op.setListenMouseLeave true, Op.onInit] initWatcher

/-- A `mousedown` on node 4, outside the host element (node 2). -/
def evtOutside : MouseEvt := { target := some 4, relatedTarget := none, toElement := none }

/-- A `mousedown` whose target is the host element itself. -/
def evtOnHost : MouseEvt := { target := some 2, relatedTarget := none, toElement := none }

/-- C2 (counterexample): teardown does not mark the directive inactive —
`ngOnDestroy` leaves `isInitialized` set, so a configuration update after
teardown re-runs `updateListeners` and re-installs a subscription, and a
subsequent `mousedown` outside the host emits a signal.  This refutes the
claim's "for every sequence of configuration updates performed after
teardown, no subscription is ever installed again and neither signal
channel ever emits". -/
theorem C2_counterexample :
    (applyOps [Op.onInit, Op.onDestroy, Op.setIsListening true] initWatcher).mouseDownSubs
        = 1 ∧
    (dispatchMouseDown demoContains
        (applyOps [Op.onInit, Op.onDestroy, Op.setIsListening true] initWatcher)
        evtOutside).2 = [evtOutside] := by
  decide

/-- C2 (amended): teardown unconditionally removes every active
subscription (every subscription count drops to zero and the snapshot
reports all listeners cleared), it is idempotent (safe to call multiple
times), and as long as no configuration update follows, no event dispatch
of any kind produces a signal.  (The directive is not marked permanently
inactive: a configuration update after teardown re-derives and can
re-install subscriptions.) -/
theorem C2_teardown_clears (w : Watcher) (h : subsInv w) :
    (ngOnDestroy w).mouseDownSubs = 0 ∧ (ngOnDestroy w).touchStartSubs = 0 ∧
    (ngOnDestroy w).mouseLeaveSubs = 0 ∧
    (ngOnDestroy w).currentState.listenersCleared = true ∧
    ngOnDestroy (ngOnDestroy w) = ngOnDestroy w ∧
    (∀ contains : Node → Bool, ∀ e : MouseEvt,
      (dispatchMouseDown contains (ngOnDestroy w) e).2 = []) ∧
    (∀ contains : Node → Bool, ∀ e : TouchEvt,
      (dispatchTouchStart contains (ngOnDestroy w) e).2 = []) ∧
    (∀ e : MouseEvt, (dispatchMouseLeave (ngOnDestroy w) e).2 = []) := by
  have hs : ngOnDestroy w =
      { w with
        mouseDownListener := false, touchStartListener := false, mouseLeaveListener := false,
        mouseDownSubs := 0, touchStartSubs := 0, mouseLeaveSubs := 0 } :=
    clearListeners_spec w h
  rw [hs]
  exact ⟨rfl, rfl, rfl, rfl, rfl, fun c e => rfl, fun c e => rfl, fun e => rfl⟩

theorem C2_teardown_clears_witness :
    (ngOnDestroy demoActive).mouseDownSubs = 0 ∧
    (ngOnDestroy demoActive).currentState.listenersCleared = true ∧
    (dispatchMouseDown demoContains (ngOnDestroy demoActive) evtOutside).2 = [] := by
  have h := C2_teardown_clears demoActive (by decide)
  exact ⟨h.1, h.2.2.2.1, h.2.2.2.2.2.1 demoContains evtOutside⟩

/-- C3: for every `mousedown` observed by the installed global handler
(exactly one `mousedown` subscription live): a resolvable target node not
contained in the host element yields exactly one `interactOutsideEvent`
emission carrying the raw event; a contained target node (including the
host element itself, containment being reflexive) yields no emission; an
event with no resolvable target node yields no emission. -/
theorem C3_mousedown_classification (contains : Node → Bool) (w : Watcher) (e : MouseEvt)
    (hsub : w.mouseDownSubs = 1) :
    (∀ t, e.target = some t → contains t = false →
      (dispatchMouseDown contains w e).2 = [e]) ∧
    (∀ t, e.target = some t → contains t = true →
      (dispatchMouseDown contains w e).2 = []) ∧
    (e.target = none → (dispatchMouseDown contains w e).2 = []) := by
  unfold dispatchMouseDown
  rw [hsub]
  refine ⟨fun t ht hc => ?_, fun t ht hc => ?_, fun ht => ?_⟩ <;> rw [fireTimes_one]
  · simp [handleMouseDown, ht, hc]
  · simp [handleMouseDown, ht, hc]
  · simp [handleMouseDown, ht]

theorem C3_mousedown_classification_witness :
    (dispatchMouseDown demoContains demoActive evtOutside).2 = [evtOutside] ∧
    (dispatchMouseDown demoContains demoActive evtOnHost).2 = [] ∧
    demoContains 2 = true := by
  refine ⟨?_, ?_, by decide⟩
  · exact (C3_mousedown_classification demoContains demoActive evtOutside (by decide)).1 4
      (by decide) (by decide)
  · exact (C3_mousedown_classification demoContains demoActive evtOnHost (by decide)).2.1 2
      (by decide) (by decide)

theorem handleTouchStart_empty_iff (contains : Node → Bool) (w : Watcher) (e2 e : TouchEvt)
    (hh : e2.changedTouches.head? = e.changedTouches.head?) :
    (handleTouchStart contains w e2).2 = [] ↔ (handleTouchStart contains w e).2 = [] := by
  unfold handleTouchStart
  rw [hh]
  cases e.changedTouches.head? with
  | none => simp
  | some touch =>
    obtain ⟨tt⟩ := touch
    cases tt with
    | none => simp
    | some t => cases hc : contains t <;> simp [hc]

/-- C4: for every `touchstart` observed by the installed global handler
(exactly one `touchstart` subscription live), classification uses only
the first entry of `changedTouches`: an empty (or absent) list or a first
point without a resolvable target node emits nothing; a first point whose
target the host does not contain emits exactly one `interactOutsideEvent`
carrying the raw event, and a contained target emits nothing — and the
outcome is unchanged by the `touches` list or the tail of `changedTouches`
(any event with the same first changed point classifies the same way). -/
theorem C4_touchstart_classification (contains : Node → Bool) (w : Watcher) (e : TouchEvt)
    (hsub : w.touchStartSubs = 1) :
    (e.changedTouches = [] → (dispatchTouchStart contains w e).2 = []) ∧
    (∀ touch rest, e.changedTouches = touch :: rest → touch.target = none →
      (dispatchTouchStart contains w e).2 = []) ∧
    (∀ touch rest t, e.changedTouches = touch :: rest → touch.target = some t →
      contains t = false → (dispatchTouchStart contains w e).2 = [e]) ∧
    (∀ touch rest t, e.changedTouches = touch :: rest → touch.target = some t →
      contains t = true → (dispatchTouchStart contains w e).2 = []) ∧
    (∀ e2 : TouchEvt, e2.changedTouches.head? = e.changedTouches.head? →
      ((dispatchTouchStart contains w e2).2 = [] ↔ (dispatchTouchStart contains w e).2 = [])) := by
  unfold dispatchTouchStart
  rw [hsub]
  refine ⟨fun hnil => ?_, fun touch rest hcons ht => ?_, fun touch rest t hcons ht hc => ?_,
    fun touch rest t hcons ht hc => ?_, fun e2 hh => ?_⟩ <;> rw [fireTimes_one]
  · simp [handleTouchStart, hnil]
  · simp [handleTouchStart, hcons, ht]
  · simp [handleTouchStart, hcons, ht, hc]
  · simp [handleTouchStart, hcons, ht, hc]
  · rw [fireTimes_one]
    exact handleTouchStart_empty_iff contains w e2 e hh

/-- A `touchstart` whose only newly-active point targets node 4 (outside
the host) while the stale full-touch list still references node 3 (inside
the host). -/
def touchEvtStale : TouchEvt :=
  { changedTouches := [{ target := some 4 }], touches := [{ target := some 3 }] }

theorem C4_touchstart_classification_witness :
    (dispatchTouchStart demoContains demoTouchActive touchEvtStale).2 = [touchEvtStale] :=
  (C4_touchstart_classification demoContains demoTouchActive touchEvtStale
    (by decide)).2.2.1 { target := some 4 } [] 4 (by decide) (by decide) (by decide)

/-- C5: for every `mouseleave` observed by the installed local handler on
the host element (exactly one `mouseleave` subscription live), the
`mouseLeaveEvent` emission carrying the raw event happens if and only if
the event has a non-null `relatedTarget` or a non-null `toElement`; an
event with both fields null is suppressed. -/
theorem C5_mouseleave_filter (w : Watcher) (e : MouseEvt) (hsub : w.mouseLeaveSubs = 1) :
    ((dispatchMouseLeave w e).2 = [e] ↔ (e.relatedTarget ≠ none ∨ e.toElement ≠ none)) ∧
    ((dispatchMouseLeave w e).2 = [] ↔ (e.relatedTarget = none ∧ e.toElement = none)) := by
  unfold dispatchMouseLeave
  rw [hsub]
  constructor <;> rw [fireTimes_one] <;>
    cases hr : e.relatedTarget <;> cases hto : e.toElement <;>
      simp [handleMouseLeave, hr, hto]

/-- A genuine leave event: the pointer moved to sibling node 4. -/
def leaveEvtGenuine : MouseEvt := { target := some 2, relatedTarget := some 4, toElement := none }

/-- A spurious leave event: no related target and no legacy to-element. -/
def leaveEvtSpurious : MouseEvt := { target := some 2, relatedTarget := none, toElement := none }

theorem C5_mouseleave_filter_witness :
    (dispatchMouseLeave demoLeaveActive leaveEvtGenuine).2 = [leaveEvtGenuine] ∧
    (dispatchMouseLeave demoLeaveActive leaveEvtSpurious).2 = [] := by
  constructor
  · exact (C5_mouseleave_filter demoLeaveActive leaveEvtGenuine (by decide)).1.mpr
      (Or.inl (by decide))
  · exact (C5_mouseleave_filter demoLeaveActive leaveEvtSpurious (by decide)).2.mpr
      ⟨by decide, by decide⟩

/-- C6: with `listening` set to false after activation, re-derivation
leaves no subscription of any kind installed (all counts zero, snapshot
reports all cleared) and no dispatched event of any kind produces a
signal, even with all three watch-flags true; setting `listening` back to
true restores exactly the subscriptions implied by the unchanged
individual flags, which themselves survive both toggles. -/
theorem C6_master_switch (w : Watcher) (h : subsInv w) (hi : w.isInitialized = true) :
    (setIsListening false w).mouseDownSubs = 0 ∧
    (setIsListening false w).touchStartSubs = 0 ∧
    (setIsListening false w).mouseLeaveSubs = 0 ∧
    (setIsListening false w).currentState.listenersCleared = true ∧
    (∀ contains : Node → Bool, ∀ e : MouseEvt,
      (dispatchMouseDown contains (setIsListening false w) e).2 = []) ∧
    (∀ contains : Node → Bool, ∀ e : TouchEvt,
      (dispatchTouchStart contains (setIsListening false w) e).2 = []) ∧
    (∀ e : MouseEvt, (dispatchMouseLeave (setIsListening false w) e).2 = []) ∧
    exactFields (setIsListening true (setIsListening false w)) ∧
    (setIsListening true (setIsListening false w)).isListening = true ∧
    (setIsListening true (setIsListening false w)).listenMouseDownOutside
        = w.listenMouseDownOutside ∧
    (setIsListening true (setIsListening false w)).listenTouchStartOutside
        = w.listenTouchStartOutside ∧
    (setIsListening true (setIsListening false w)).listenMouseLeave = w.listenMouseLeave := by
  obtain ⟨l, md, ts, ml, ini, fmd, fts, fml, smd, sts, sml⟩ := w
  have hIni : ini = true := hi
  subst hIni
  have h1 : smd = cond fmd 1 0 := h.1
  have h2 : sts = cond fts 1 0 := h.2.1
  have h3 : sml = cond fml 1 0 := h.2.2
  subst h1; subst h2; subst h3
  cases l <;> cases md <;> cases ts <;> cases ml <;> cases fmd <;> cases fts <;> cases fml <;>
    exact ⟨rfl, rfl, rfl, rfl, fun c e => rfl, fun c e => rfl, fun e => rfl,
      by decide, rfl, rfl, rfl, rfl⟩

theorem C6_master_switch_witness :
    (∀ e : MouseEvt,
      (dispatchMouseDown demoContains (setIsListening false demoActive) e).2 = []) ∧
    exactFields (setIsListening true (setIsListening false demoActive)) := by
  have h := C6_master_switch demoActive (by decide) (by decide)
  exact ⟨fun e => h.2.2.2.2.1 demoContains e, h.2.2.2.2.2.2.2.1⟩

/-- C7: immediately after construction and before activation, the
`currentState` snapshot reports `isListening=true`,
`listenMouseDownOutside=true`, `listenTouchStartOutside=false`,
`listenMouseLeave=false` with `listenersCleared=true`, and no
subscription of any kind is installed. -/
theorem C7_default_state :
    initWatcher.currentState =
      { isListening := true, listenMouseDownOutside := true, listenTouchStartOutside := false,
        listenMouseLeave := false, listenersCleared := true } ∧
    initWatcher.mouseDownSubs = 0 ∧ initWatcher.touchStartSubs = 0 ∧
    initWatcher.mouseLeaveSubs = 0 ∧ initWatcher.isInitialized = false := by
  decide

/-- C8: before activation (`isInitialized = false`), each input setter
changes only its stored configuration value — the whole state is otherwise
untouched, in particular the three listener handles — and the subsequent
`ngOnInit` is the first operation to install subscriptions, deriving them
exactly from the configuration stored at that moment. -/
theorem C8_preactivation_frame (w : Watcher) (hpre : w.isInitialized = false) (v : Bool) :
    setIsListening v w = { w with isListening := v } ∧
    setListenMouseDownOutside v w = { w with listenMouseDownOutside := v } ∧
    setListenTouchStartOutside v w = { w with listenTouchStartOutside := v } ∧
    setListenMouseLeave v w = { w with listenMouseLeave := v } ∧
    (subsInv w →
      exactFields (ngOnInit w) ∧ subsInv (ngOnInit w) ∧
      (ngOnInit w).isListening = w.isListening ∧
      (ngOnInit w).listenMouseDownOutside = w.listenMouseDownOutside ∧
      (ngOnInit w).listenTouchStartOutside = w.listenTouchStartOutside ∧
      (ngOnInit w).listenMouseLeave = w.listenMouseLeave) := by
  obtain ⟨l, md, ts, ml, ini, fmd, fts, fml, smd, sts, sml⟩ := w
  have hIni : ini = false := hpre
  subst hIni
  refine ⟨rfl, rfl, rfl, rfl, fun hs => ?_⟩
  have h1 : smd = cond fmd 1 0 := hs.1
  have h2 : sts = cond fts 1 0 := hs.2.1
  have h3 : sml = cond fml 1 0 := hs.2.2
  subst h1; subst h2; subst h3
  cases l <;> cases md <;> cases ts <;> cases ml <;> cases fmd <;> cases fts <;> cases fml <;>
    exact ⟨by decide, by decide, rfl, rfl, rfl, rfl⟩

theorem C8_preactivation_frame_witness :
    setIsListening false initWatcher = { initWatcher with isListening := false } ∧
    exactFields (ngOnInit initWatcher) := by
  have h := C8_preactivation_frame initWatcher (by decide) false
  exact ⟨h.1, (h.2.2.2.2 (by decide)).1⟩

/-- C9: after activation, setting any configuration field to its current
value is an effective no-op: re-derivation runs, but the `currentState`
snapshot (all four flags and `listenersCleared`) is unchanged. -/
theorem C9_redundant_update_noop (w : Watcher) (hi : w.isInitialized = true)
    (hex : exactFields w) :
    (setIsListening w.isListening w).currentState = w.currentState ∧
    (setListenMouseDownOutside w.listenMouseDownOutside w).currentState = w.currentState ∧
    (setListenTouchStartOutside w.listenTouchStartOutside w).currentState = w.currentState ∧
    (setListenMouseLeave w.listenMouseLeave w).currentState = w.currentState := by
  obtain ⟨l, md, ts, ml, ini, fmd, fts, fml, smd, sts, sml⟩ := w
  have hIni : ini = true := hi
  subst hIni
  have h1 : fmd = (l && md) := hex.1
  have h2 : fts = (l && ts) := hex.2.1
  have h3 : fml = (l && ml) := hex.2.2
  subst h1; subst h2; subst h3
  cases l <;> cases md <;> cases ts <;> cases ml <;> exact ⟨rfl, rfl, rfl, rfl⟩

theorem C9_redundant_update_noop_witness :
    (setIsListening demoActive.isListening demoActive).currentState
      = demoActive.currentState :=
  (C9_redundant_update_noop demoActive (by decide) (by decide)).1

/-- C10: the three event handlers are read-only with respect to directive
state: dispatching any `mousedown`, `touchstart` or `mouseleave` event
returns the state unchanged — all flags, handles and subscription counts,
hence the whole observable snapshot — whether or not a signal is
emitted. -/
theorem C10_handlers_readonly (contains : Node → Bool) (w : Watcher) (em el : MouseEvt)
    (et : TouchEvt) :
    (dispatchMouseDown contains w em).1 = w ∧
    (dispatchTouchStart contains w et).1 = w ∧
    (dispatchMouseLeave w el).1 = w ∧
    (dispatchMouseDown contains w em).1.currentState = w.currentState := by
  have hmd := fireTimes_fst (fun w1 => handleMouseDown contains w1 em)
    (fun w1 => handleMouseDown_fst contains w1 em) w.mouseDownSubs w
  have hts := fireTimes_fst (fun w1 => handleTouchStart contains w1 et)
    (fun w1 => handleTouchStart_fst contains w1 et) w.touchStartSubs w
  have hml := fireTimes_fst (fun w1 => handleMouseLeave w1 el)
    (fun w1 => handleMouseLeave_fst w1 el) w.mouseLeaveSubs w
  exact ⟨hmd, hts, hml, congrArg Watcher.currentState hmd⟩

end InteractOutside
